import Mathlib

/-!
Verification development for the PLNexus market discovery tool.

Shallow embedding of the tracing subsystem (src/shared/Tracer.js), the
environment flag (src/infrastructure/config/EnvironmentService.js), the
adapter factory (AdapterFactory in
src/infrastructure/adapters/api/MockMarketAdapter.js), the CLI argument
strategy of the orchestrator (src/main.js) and the MarketQuote entity
(domain/entities/MarketQuote.js).

JavaScript conventions modelled explicitly:
- string truthiness: a string is falsy exactly when it is empty, so
  `x || d` on strings is `jsOr`;
- number truthiness: a number is falsy exactly when it is 0 (NaN is not
  modelled), so `!timestamp` on a number is `jsNumTruthy`;
- `a > b` where either side is `undefined` evaluates to false, modelled by
  `jsGT` on `Option Nat`;
- values that may be absent or of the wrong runtime type are `Option`s;
- a fallible call is `Except String` carrying the error message;
- the trace file is the list of appended entries, in append order;
- wall-clock readings (timestamps, durations, the random session id, the
  local date string) are parameters supplied by the caller of each step.
-/

/-- JS string truthiness: only the empty string is falsy. -/
def jsStrTruthy (s : String) : Bool := s ≠ ""

/-- JS `x || d` for an optional string `x`: the default is used when `x` is
absent (`undefined`) or falsy (empty). -/
def jsOr (v : Option String) (d : String) : String :=
  match v with
  | some s => if jsStrTruthy s then s else d
  | none => d

/-- JS number truthiness: 0 is falsy. -/
def jsNumTruthy (q : ℚ) : Bool := q ≠ 0

/-- JS `a > b` where a missing operand (`undefined`) makes the comparison
false. -/
def jsGT : Option Nat → Option Nat → Bool
  | some a, some b => decide (a > b)
  | _, _ => false

/-- Structural character-list version of starting-segment comparison
(`String.startsWith` itself does not reduce in the kernel): does the
second list begin with the first? -/
def charsStart : List Char → List Char → Bool
  | [], _ => true
  | _ :: _, [] => false
  | a :: as, b :: bs => a == b && charsStart as bs

/-- `String.prototype.startsWith(p)` on `s`. -/
def jsStartsWith (s p : String) : Bool := charsStart p.data s.data

/-- `String.prototype.toUpperCase` for the ASCII tokens used here: upper
case each character (structural recursion over the character list). -/
def jsToUpper (s : String) : String := String.mk (s.data.map Char.toUpper)

/-- `path.join` of two segments. -/
def pathJoin (a b : String) : String := a ++ "/" ++ b

/-- The level table of src/shared/Tracer.js line 18:
`LOG_LEVELS = { error: 0, warn: 1, info: 2, debug: 3 }`; any other key is
`undefined`. -/
def LOG_LEVELS : String → Option Nat
  | "error" => some 0
  | "warn" => some 1
  | "info" => some 2
  | "debug" => some 3
  | _ => none

/-- The process environment and the EnvironmentService flag as the tracer
sees them: `EnvironmentService.isTracingEnabled`, `process.env.LOG_LEVEL`,
`process.env.NODE_ENV`, `process.version`. -/
structure Env where
  isTracingEnabled : Bool
  logLevel : Option String
  nodeEnv : Option String
  nodeVersion : String
  deriving Repr, DecidableEq

/-- The default of `EnvironmentService.#config.enableTracing`
(src EnvironmentService.js: `static #config = { enableTracing: false }`);
this is the value in force until `hydrate()` runs. -/
def EnvironmentService.defaultTracingEnabled : Bool := false

/-- The mutable fields of the Tracer singleton (constructor of
src/shared/Tracer.js). -/
structure TracerState where
  projectRoot : Option String
  traceFile : Option String
  isInitialized : Bool
  sessionID : Option String
  deriving Repr, DecidableEq

/-- The metadata object passed to `record`: its optional `level`, the
fields added by `traceSpan` (`durationMs`, `error`), and any other
key-value context. -/
structure EventData where
  level : Option String := none
  durationMs : Option Nat := none
  error : Option String := none
  fields : List (String × String) := []
  deriving Repr, DecidableEq

/-- One JSON line of the trace file: the five fields `ts`, `sid`, `lyr`,
`evt`, `dat` of the entry built in `Tracer.record`. -/
structure TraceEntry where
  ts : String
  sid : Option String
  lyr : String
  evt : String
  dat : EventData
  deriving Repr, DecidableEq

/-- `Tracer.record(layer, event, data)` (src/shared/Tracer.js lines 84-112):
returns the trace file contents after the call. Drops the event when the
tracer is uninitialized or tracing is globally disabled; drops it when the
requested level (`data.level || 'info'`) is strictly more verbose than the
system level (`process.env.LOG_LEVEL || 'info'`) under the JS comparison on
`LOG_LEVELS`; otherwise appends one entry with upper-cased layer and event
tags. The appendFile error path only logs externally, leaving the file as
written. -/
def Tracer.record (env : Env) (st : TracerState) (log : List TraceEntry)
    (ts layer event : String) (data : EventData) : List TraceEntry :=
  if !st.isInitialized || !env.isTracingEnabled then log
  else
    let requestLevel := jsOr data.level ("info")
    let systemLevel := jsOr env.logLevel ("info")
    if jsGT (LOG_LEVELS requestLevel) (LOG_LEVELS systemLevel) then log
    else
      log ++ [{ ts := ts, sid := st.sessionID, lyr := jsToUpper layer,
                evt := jsToUpper event, dat := data }]

/-- `Tracer.initialize(projectRoot, namespace)` (src/shared/Tracer.js lines
44-75), called `init` here. Returns early when already initialized.
Otherwise assigns `projectRoot` and a fresh session id, attempts `mkdir`
(outcome supplied as `mkdirOk`); on failure the catch block only logs, so
the tracer stays uninitialized with the new session id assigned. On
success it sets the dated trace file path, marks itself initialized and
records the `SYSTEM`/`TRACER_READY` event carrying the session id,
`process.env.NODE_ENV || 'development'` and `process.version`. -/
def Tracer.init (env : Env) (st : TracerState) (log : List TraceEntry)
    (mkdirOk : Bool) (newSid dateStr ts root ns : String) :
    TracerState × List TraceEntry :=
  if st.isInitialized then (st, log)
  else
    let st1 := { st with projectRoot := some root, sessionID := some newSid }
    let traceDir := pathJoin (pathJoin root ("logs")) ("traces")
    if mkdirOk then
      let st2 := { st1 with
        traceFile := some (pathJoin traceDir (ns ++ "-" ++ dateStr ++ ".trace.log")),
        isInitialized := true }
      let readyData : EventData :=
        { fields := [("sid", newSid), ("env", jsOr env.nodeEnv ("development")),
                     ("node", env.nodeVersion)] }
      (st2, Tracer.record env st2 log ts ("SYSTEM") ("TRACER_READY") readyData)
    else (st1, log)

/-- `Tracer.traceSpan(layer, label, fn, meta)` (src/shared/Tracer.js lines
125-154). When tracing is globally disabled the operation is invoked and
its result or error returned unchanged with no records. Otherwise a
`<label>_START` record precedes the operation; success appends
`<label>_COMPLETE` with the elapsed duration and returns the result;
failure appends `<label>_FAILED` with the duration and the error message,
then re-throws the original error. The operation is the already-determined
outcome `fn`; start and end timestamps and the duration are supplied. -/
def Tracer.traceSpan {α : Type} (env : Env) (st : TracerState)
    (log : List TraceEntry) (layer label : String) (fn : Except String α)
    (meta : EventData) (tsStart tsEnd : String) (duration : Nat) :
    Except String α × List TraceEntry :=
  if !env.isTracingEnabled then (fn, log)
  else
    let log1 := Tracer.record env st log tsStart layer (label ++ "_START") meta
    match fn with
    | Except.ok result =>
      (Except.ok result,
        Tracer.record env st log1 tsEnd layer (label ++ "_COMPLETE")
          { meta with durationMs := some duration })
    | Except.error e =>
      (Except.error e,
        Tracer.record env st log1 tsEnd layer (label ++ "_FAILED")
          { meta with durationMs := some duration, error := some e })

/-- A validated provider configuration object, abstracted to its key-value
content (the factory only passes it through to the adapter constructor). -/
structure ProviderConfig where
  entries : List (String × String)
  deriving Repr, DecidableEq

/-- One entry of `config/adapters.manifest.json`:
`{ path, className, requiresConfig, configKey }`. An absent `configKey`
is `none`. -/
structure AdapterDef where
  path : String
  className : String
  requiresConfig : Bool
  configKey : Option String
  deriving Repr, DecidableEq

/-- The parsed manifest: `adapters` maps mode keys to entries, in the
declaration order of the JSON object (the order `Object.keys` yields). -/
structure Manifest where
  adapters : List (String × AdapterDef)
  deriving Repr, DecidableEq

/-- JS `Array.prototype.join(', ')`. -/
def joinComma : List String → String
  | [] => ""
  | [s] => s
  | s :: rest => s ++ ", " ++ joinComma rest

/-- `manifest.adapters[mode]`: association-list lookup in declaration
order. -/
def lookupMode (adapters : List (String × AdapterDef)) (mode : String) :
    Option AdapterDef :=
  match adapters.find? (fun p => p.1 == mode) with
  | some p => some p.2
  | none => none

/-- Outcome of `readFile` + `JSON.parse` on the manifest path: the file may
be missing (ENOENT), unparseable, or parsed. -/
inductive ManifestRead where
  | enoent : ManifestRead
  | parseFail (msg : String) : ManifestRead
  | parsed (m : Manifest) : ManifestRead

/-- `AdapterFactory._getManifest` (MockMarketAdapter.js source, factory
part, lines 171-181): ENOENT becomes the missing-manifest error, any other
read or parse failure the malformed-manifest error. -/
def AdapterFactory.getManifest (manifestPath : String) (r : ManifestRead) :
    Except String Manifest :=
  match r with
  | ManifestRead.enoent =>
    Except.error ("Manifest missing at: " ++ manifestPath ++
      ". Please check your config/ directory.")
  | ManifestRead.parseFail msg => Except.error ("Malformed manifest: " ++ msg)
  | ManifestRead.parsed m => Except.ok m

/-- An instantiated adapter: which class was constructed and whether a
provider configuration was injected as its single argument. -/
structure AdapterInstance where
  className : String
  injected : Option ProviderConfig
  deriving Repr, DecidableEq

/-- `path.isAbsolute` for POSIX paths. -/
def isAbsolutePath (s : String) : Bool := jsStartsWith s ("/")

/-- `AdapterFactory.loadAdapter(mode, envService)` (factory lines 118-164).
The dynamic-import outcome is supplied as `importModule` (the list of
export names of the module, or a load error) and
`envService.getProviderConfig` as `getProviderConfig`. Steps: read the
manifest fresh, look up the mode (an absent mode fails with a message
enumerating the declared modes), resolve the module path, import it,
extract the named export, construct with injected configuration when
`requiresConfig` is set and with no arguments otherwise. The outer catch
wraps every failure with the mode-scoped prefix and re-throws. -/
def AdapterFactory.loadAdapter (root mode : String) (readRes : ManifestRead)
    (importModule : String → Except String (List String))
    (getProviderConfig : Option String → Except String ProviderConfig) :
    Except String AdapterInstance :=
  let manifestPath := pathJoin (pathJoin root ("config")) ("adapters.manifest.json")
  let attempt : Except String AdapterInstance :=
    match AdapterFactory.getManifest manifestPath readRes with
    | Except.error e => Except.error e
    | Except.ok manifest =>
      match lookupMode manifest.adapters mode with
      | none =>
        let available := joinComma (manifest.adapters.map (fun p => p.1))
        Except.error ("Execution mode \"" ++ mode ++
          "\" is not defined in manifest. Available: [" ++ available ++ "]")
      | some adapterDef =>
        let modulePath :=
          if isAbsolutePath adapterDef.path then adapterDef.path
          else pathJoin root adapterDef.path
        match importModule modulePath with
        | Except.error e => Except.error e
        | Except.ok exports =>
          if exports.contains adapterDef.className then
            if adapterDef.requiresConfig then
              match getProviderConfig adapterDef.configKey with
              | Except.error e => Except.error e
              | Except.ok config =>
                Except.ok { className := adapterDef.className, injected := some config }
            else Except.ok { className := adapterDef.className, injected := none }
          else
            Except.error ("Export \"" ++ adapterDef.className ++
              "\" not found in module at " ++ adapterDef.path)
  match attempt with
  | Except.ok a => Except.ok a
  | Except.error msg =>
    Except.error ("[AdapterFactory] Load failure for mode " ++ mode ++ ": " ++ msg)

/-- The input-capture strategy `bootstrap` selects (src/main.js lines
79-110): help flags exit via `displayHelp`; otherwise a non-empty argument
list (`isAutomated = args.length > 0`) takes the automated path with
`mode = '--mock' present ? '2' : ('--live' present ? '1' : null)` and the
first argument not starting with a dash as symbol; an empty argument list
delegates to the interactive MenuSystem flow. -/
inductive Strategy where
  | help : Strategy
  | interactive : Strategy
  | automated (mode : Option String) (symbolArg : Option String) : Strategy
  deriving Repr, DecidableEq

/-- The argument analysis of `bootstrap` (src/main.js lines 79-110) as a
function of `process.argv.slice(2)`. -/
def bootstrapStrategy (args : List String) : Strategy :=
  let isAutomated := args.length > 0
  if args.contains ("--help") || args.contains ("-h") then Strategy.help
  else if isAutomated then
    Strategy.automated
      (if args.contains ("--mock") then some ("2")
       else if args.contains ("--live") then some ("1") else none)
      (args.find? (fun arg => !(jsStartsWith arg ("--")) && !(jsStartsWith arg ("-"))))
  else Strategy.interactive

/-- The argument object of the `MarketQuote` constructor
(domain/entities/MarketQuote.js): a field is `none` when absent or not of
the expected runtime type (so the `typeof` checks fail), numbers are
rationals. -/
structure QuoteParams where
  symbol : Option String
  price : Option ℚ
  timestamp : Option ℚ
  source : Option String
  deriving Repr, DecidableEq

/-- A constructed `MarketQuote` entity (frozen after construction). -/
structure MarketQuote where
  symbol : String
  price : ℚ
  timestamp : ℚ
  source : String
  deriving Repr, DecidableEq

/-- The `MarketQuote` constructor (domain/entities/MarketQuote.js lines
16-37). Validation order as in the source: `!symbol || typeof symbol !==
'string'`, then `typeof price !== 'number' || price < 0`, then
`!timestamp || typeof timestamp !== 'number'` (so the falsy number 0 is
rejected). On success the symbol is upper-cased and `source || 'UNKNOWN'`
stored. The numeric interpolation in the price message is elided. -/
def MarketQuote.create (p : QuoteParams) : Except String MarketQuote :=
  match p.symbol with
  | none => Except.error ("[Entity] MarketQuote requires a valid string symbol.")
  | some symbol =>
    if !jsStrTruthy symbol then
      Except.error ("[Entity] MarketQuote requires a valid string symbol.")
    else match p.price with
    | none =>
      Except.error ("[Entity] MarketQuote for " ++ symbol ++ " has an invalid price.")
    | some price =>
      if price < 0 then
        Except.error ("[Entity] MarketQuote for " ++ symbol ++ " has an invalid price.")
      else match p.timestamp with
      | none =>
        Except.error ("[Entity] MarketQuote for " ++ symbol ++
          " requires a valid numerical timestamp.")
      | some timestamp =>
        if !jsNumTruthy timestamp then
          Except.error ("[Entity] MarketQuote for " ++ symbol ++
            " requires a valid numerical timestamp.")
        else
          Except.ok { symbol := jsToUpper symbol, price := price,
                      timestamp := timestamp, source := jsOr p.source ("UNKNOWN") }


/-! Concrete fixtures used by witnesses and counterexamples. -/

/-- Environment before `EnvironmentService.hydrate()` runs: tracing holds
its default (disabled), no LOG_LEVEL or NODE_ENV set. -/
def envOff : Env :=
  { isTracingEnabled := EnvironmentService.defaultTracingEnabled,
    logLevel := none, nodeEnv := none, nodeVersion := ("v20.11.0") }

/-- Environment with tracing enabled and default levels. -/
def envOn : Env := { envOff with isTracingEnabled := true }

/-- Environment with tracing enabled and `LOG_LEVEL=error`. -/
def envOnErrorLevel : Env := { envOn with logLevel := some ("error") }

/-- The tracer singleton as constructed (before any `initialize`). -/
def stUninit : TracerState :=
  { projectRoot := none, traceFile := none, isInitialized := false,
    sessionID := none }

/-- A tracer state after a successful initialization. -/
def stInit : TracerState :=
  { projectRoot := some ("/app"),
    traceFile := some ("/app/logs/traces/plnexus-2026-10-12.trace.log"),
    isInitialized := true, sessionID := some ("A1B2C3D") }

/-- Metadata declaring the `debug` level. -/
def dataDebug : EventData := { level := some ("debug") }

/-- A two-mode manifest as in config/adapters.manifest.json: mode 1 is the
live adapter requiring Finnhub configuration, mode 2 the mock adapter. -/
def manifest12 : Manifest :=
  { adapters :=
      [(("1"), { path := ("src/infrastructure/adapters/api/FinnhubAdapter.js"),
                 className := ("FinnhubAdapter"), requiresConfig := true,
                 configKey := some ("Finnhub") }),
       (("2"), { path := ("src/infrastructure/adapters/api/MockMarketAdapter.js"),
                 className := ("MockMarketAdapter"), requiresConfig := false,
                 configKey := none })] }

/-- An import outcome resolving every module to the two adapter exports. -/
def importBoth : String → Except String (List String) :=
  fun _ => Except.ok [("FinnhubAdapter"), ("MockMarketAdapter")]

/-- A provider-configuration resolver that always succeeds. -/
def gpcOk : Option String → Except String ProviderConfig :=
  fun _ => Except.ok { entries := [] }

/-! Claims. -/

/-- C1: with tracing globally disabled, `traceSpan(layer, label, operation,
meta)` returns exactly the operation's own outcome (same value, same
error) and appends zero trace lines. -/
theorem C1_traceSpan_disabled_identity {α : Type} (env : Env)
    (st : TracerState) (log : List TraceEntry) (layer label : String)
    (fn : Except String α) (meta : EventData) (tsStart tsEnd : String)
    (duration : Nat) (hdis : env.isTracingEnabled = false) :
    Tracer.traceSpan env st log layer label fn meta tsStart tsEnd duration
      = (fn, log) := by
  simp [Tracer.traceSpan, hdis]

/-- Witness for C1 at a concrete failing operation. -/
theorem C1_witness :
    Tracer.traceSpan envOff stInit [] ("CLI") ("USER_INTERACTION")
        (Except.error ("menu failure") : Except String Nat) {} ("t0") ("t1") 5
      = (Except.error ("menu failure"), []) :=
  C1_traceSpan_disabled_identity envOff stInit [] ("CLI") ("USER_INTERACTION")
    (Except.error ("menu failure")) {} ("t0") ("t1") 5 rfl

/-- C2: with the tracer initialized and tracing enabled, and both the
event's effective level (`data.level || 'info'`) and the system level
(`LOG_LEVEL || 'info'`) valid entries of `LOG_LEVELS`, `record` appends
nothing when the event level is strictly more verbose (numerically
greater), and otherwise appends exactly one entry carrying the five fields
ts, sid, lyr, evt, dat. -/
theorem C2_record_level_filter (env : Env) (st : TracerState)
    (log : List TraceEntry) (ts layer event : String) (data : EventData)
    (i j : Nat) (hinit : st.isInitialized = true)
    (hen : env.isTracingEnabled = true)
    (hreq : LOG_LEVELS (jsOr data.level ("info")) = some i)
    (hsys : LOG_LEVELS (jsOr env.logLevel ("info")) = some j) :
    (i > j → Tracer.record env st log ts layer event data = log)
    ∧ (¬ i > j → Tracer.record env st log ts layer event data
        = log ++ [{ ts := ts, sid := st.sessionID, lyr := jsToUpper layer,
                    evt := jsToUpper event, dat := data }]) := by
  constructor
  · intro hgt
    simp [Tracer.record, hinit, hen, hreq, hsys, jsGT, hgt]
  · intro hle
    simp [Tracer.record, hinit, hen, hreq, hsys, jsGT, hle]

/-- Witness for C2: a debug event against the default (info) system level
is dropped. -/
theorem C2_witness :
    Tracer.record envOn stInit [] ("t0") ("INFRA") ("VERBOSE_DETAIL") dataDebug
      = [] :=
  (C2_record_level_filter envOn stInit [] ("t0") ("INFRA") ("VERBOSE_DETAIL")
    dataDebug 3 2 rfl rfl rfl rfl).1 (by decide)

/-- C3 counterexample: with tracing enabled, an initialized tracer and a
failing operation, a span whose metadata declares the `debug` level under
the default system level writes zero lines, not two: both the START and
FAILED records are dropped by the level filter. -/
theorem C3_counterexample :
    envOn.isTracingEnabled = true ∧ stInit.isInitialized = true ∧
    (Tracer.traceSpan envOn stInit [] ("DOMAIN") ("MOCK_FETCH")
        (Except.error ("Upstream Market Provider is currently unreachable.") :
          Except String Nat)
        dataDebug ("t0") ("t1") 7).2.length = 0 := by
  decide

/-- C3 (amended): with tracing enabled, an initialized tracer, and
metadata whose effective level passes the level filter, `traceSpan` on a
failing operation appends exactly two entries — `<label>_START` with the
metadata, then `<label>_FAILED` carrying the metadata, the elapsed
duration and the failure's message — and re-raises the original failure
with its message unchanged. -/
theorem C3_traceSpan_failure_two_lines {α : Type} (env : Env)
    (st : TracerState) (log : List TraceEntry) (layer label e : String)
    (meta : EventData) (tsStart tsEnd : String) (duration : Nat)
    (hinit : st.isInitialized = true) (hen : env.isTracingEnabled = true)
    (hpass : jsGT (LOG_LEVELS (jsOr meta.level ("info")))
        (LOG_LEVELS (jsOr env.logLevel ("info"))) = false) :
    Tracer.traceSpan env st log layer label
        (Except.error e : Except String α) meta tsStart tsEnd duration
      = (Except.error e,
         log ++ [{ ts := tsStart, sid := st.sessionID, lyr := jsToUpper layer,
                   evt := jsToUpper (label ++ "_START"), dat := meta },
                 { ts := tsEnd, sid := st.sessionID, lyr := jsToUpper layer,
                   evt := jsToUpper (label ++ "_FAILED"),
                   dat := { meta with durationMs := some duration, error := some e } }]) := by
  simp [Tracer.traceSpan, Tracer.record, hinit, hen, hpass]

/-- Witness for C3 (amended) at default-level metadata. -/
theorem C3_witness :
    Tracer.traceSpan envOn stInit [] ("SYSTEM") ("BOOTSTRAP_SEQUENCE")
        (Except.error ("boom") : Except String Nat) {} ("t0") ("t1") 12
      = (Except.error ("boom"),
         [{ ts := ("t0"), sid := some ("A1B2C3D"), lyr := ("SYSTEM"),
            evt := ("BOOTSTRAP_SEQUENCE_START"), dat := {} },
          { ts := ("t1"), sid := some ("A1B2C3D"), lyr := ("SYSTEM"),
            evt := ("BOOTSTRAP_SEQUENCE_FAILED"),
            dat := { durationMs := some 12, error := some ("boom") } }]) := by
  have h := C3_traceSpan_failure_two_lines (α := Nat) envOn stInit []
    ("SYSTEM") ("BOOTSTRAP_SEQUENCE") ("boom") {} ("t0") ("t1") 12 rfl rfl rfl
  simpa using h

/-- C4 counterexample: a successful initialization (directory created,
trace file path set, tracer marked initialized) while tracing still holds
its pre-hydration default (disabled) writes no TRACER_READY event at all —
which is exactly the bootstrap situation, since main.js initializes the
tracer before `EnvironmentService.hydrate()` runs. -/
theorem C4_counterexample :
    EnvironmentService.defaultTracingEnabled = false ∧
    envOff.isTracingEnabled = EnvironmentService.defaultTracingEnabled ∧
    (Tracer.init envOff stUninit [] true ("SID1234") ("2026-10-12") ("t0")
        ("/app") ("plnexus")).1.isInitialized = true ∧
    (Tracer.init envOff stUninit [] true ("SID1234") ("2026-10-12") ("t0")
        ("/app") ("plnexus")).1.traceFile
      = some ("/app/logs/traces/plnexus-2026-10-12.trace.log") ∧
    (Tracer.init envOff stUninit [] true ("SID1234") ("2026-10-12") ("t0")
        ("/app") ("plnexus")).2 = [] := by
  decide

/-- C4 (amended): when tracing is globally enabled at initialization time
and the configured system level admits info-level events, a successful
initialization marks the tracer initialized and appends exactly one
SYSTEM/TRACER_READY entry carrying the session id, the NODE_ENV descriptor
and the node version. -/
theorem C4_tracer_ready_when_enabled (env : Env) (st : TracerState)
    (log : List TraceEntry) (newSid dateStr ts root ns : String)
    (h0 : st.isInitialized = false) (hen : env.isTracingEnabled = true)
    (hlvl : jsGT (some 2) (LOG_LEVELS (jsOr env.logLevel ("info"))) = false) :
    (Tracer.init env st log true newSid dateStr ts root ns).1.isInitialized
        = true ∧
    (Tracer.init env st log true newSid dateStr ts root ns).2
      = log ++ [{ ts := ts, sid := some newSid, lyr := ("SYSTEM"),
                  evt := ("TRACER_READY"),
                  dat := { fields :=
                    [(("sid"), newSid),
                     (("env"), jsOr env.nodeEnv ("development")),
                     (("node"), env.nodeVersion)] } }] := by
  constructor
  · simp [Tracer.init, h0]
  · simp [Tracer.init, Tracer.record, h0, hen,
      show jsOr none ("info") = ("info") from rfl,
      show LOG_LEVELS ("info") = some 2 from rfl, hlvl,
      show jsToUpper ("SYSTEM") = ("SYSTEM") from rfl,
      show jsToUpper ("TRACER_READY") = ("TRACER_READY") from rfl]

/-- Witness for C4 (amended) with tracing enabled and default levels. -/
theorem C4_witness :
    (Tracer.init envOn stUninit [] true ("SID1234") ("2026-10-12") ("t0")
        ("/app") ("plnexus")).1.isInitialized = true ∧
    (Tracer.init envOn stUninit [] true ("SID1234") ("2026-10-12") ("t0")
        ("/app") ("plnexus")).2
      = [{ ts := ("t0"), sid := some ("SID1234"), lyr := ("SYSTEM"),
           evt := ("TRACER_READY"),
           dat := { fields := [(("sid"), ("SID1234")),
                               (("env"), ("development")),
                               (("node"), ("v20.11.0"))] } }] := by
  have h := C4_tracer_ready_when_enabled envOn stUninit [] ("SID1234")
    ("2026-10-12") ("t0") ("/app") ("plnexus") rfl rfl rfl
  simpa [envOn, envOff, jsOr] using h

/-- Every member of a list occurs inside its comma join. -/
theorem joinComma_mem_split (k : String) :
    ∀ l : List String, k ∈ l → ∃ pre post, joinComma l = pre ++ k ++ post := by
  intro l
  induction l with
  | nil => intro h; cases h
  | cons s rest ih =>
    intro h
    cases rest with
    | nil =>
      have hk : k = s := by
        cases h with
        | head => rfl
        | tail _ h2 => cases h2
      exact ⟨"", "", by simp [joinComma, hk]⟩
    | cons s2 rest2 =>
      cases h with
      | head =>
        exact ⟨"", ", " ++ joinComma (s2 :: rest2), by
          simp [joinComma, String.append_assoc]⟩
      | tail _ hmem =>
        obtain ⟨pre, post, hpp⟩ := ih hmem
        exact ⟨s ++ ", " ++ pre, post, by
          simp [joinComma, hpp, String.append_assoc]⟩

/-- C5: for a manifest that parses, any mode key absent from its adapters
map makes `loadAdapter` fail, and the failure message contains every mode
key the manifest declares. -/
theorem C5_unknown_mode_enumerates (root mode : String) (manifest : Manifest)
    (importModule : String → Except String (List String))
    (getProviderConfig : Option String → Except String ProviderConfig)
    (habsent : lookupMode manifest.adapters mode = none) :
    ∃ msg,
      AdapterFactory.loadAdapter root mode (ManifestRead.parsed manifest)
          importModule getProviderConfig = Except.error msg
      ∧ ∀ k ∈ manifest.adapters.map (fun p => p.1),
          ∃ pre post, msg = pre ++ k ++ post := by
  refine ⟨"[AdapterFactory] Load failure for mode " ++ mode ++ ": " ++
      ("Execution mode \"" ++ mode ++
        "\" is not defined in manifest. Available: [" ++
        joinComma (manifest.adapters.map (fun p => p.1)) ++ "]"), ?_, ?_⟩
  · simp [AdapterFactory.loadAdapter, AdapterFactory.getManifest, habsent]
  · intro k hk
    obtain ⟨pre, post, hpp⟩ :=
      joinComma_mem_split k (manifest.adapters.map (fun p => p.1)) hk
    refine ⟨("[AdapterFactory] Load failure for mode " ++ mode ++ ": " ++
      ("Execution mode \"" ++ mode ++
        "\" is not defined in manifest. Available: [")) ++ pre,
      post ++ ("]"), ?_⟩
    rw [hpp]
    simp [String.append_assoc]

/-- Witness for C5: unknown mode 9 against the two-mode manifest; the
message contains the declared keys 1 and 2. -/
theorem C5_witness :
    ∃ msg,
      AdapterFactory.loadAdapter ("/app") ("9") (ManifestRead.parsed manifest12)
          importBoth gpcOk = Except.error msg
      ∧ ∀ k ∈ manifest12.adapters.map (fun p => p.1),
          ∃ pre post, msg = pre ++ k ++ post :=
  C5_unknown_mode_enumerates ("/app") ("9") manifest12 importBoth gpcOk rfl

/-- C6: a second `initialize` in the same process after a successful first
call is a no-op: it returns the state and trace file of the first call
unchanged (same trace file path, same session id, no regeneration), for
any root, namespace, session id or date supplied to the second call. -/
theorem C6_init_idempotent (env env2 : Env) (st0 : TracerState)
    (log0 : List TraceEntry) (sid1 date1 ts1 root1 ns1 : String)
    (mk2 : Bool) (sid2 date2 ts2 root2 ns2 : String)
    (h0 : st0.isInitialized = false) :
    Tracer.init env2 (Tracer.init env st0 log0 true sid1 date1 ts1 root1 ns1).1
        (Tracer.init env st0 log0 true sid1 date1 ts1 root1 ns1).2
        mk2 sid2 date2 ts2 root2 ns2
      = Tracer.init env st0 log0 true sid1 date1 ts1 root1 ns1 := by
  set r := Tracer.init env st0 log0 true sid1 date1 ts1 root1 ns1 with hr
  have h1 : r.1.isInitialized = true := by
    rw [hr]; simp [Tracer.init, h0]
  simp [Tracer.init, h1]

/-- Witness for C6 at concrete roots and ids: the second call discards its
fresh session id. -/
theorem C6_witness :
    Tracer.init envOn
        (Tracer.init envOn stUninit [] true ("SID1234") ("2026-10-12") ("t0")
          ("/app") ("plnexus")).1
        (Tracer.init envOn stUninit [] true ("SID1234") ("2026-10-12") ("t0")
          ("/app") ("plnexus")).2
        true ("OTHERSID") ("2026-10-13") ("t9") ("/app") ("plnexus")
      = Tracer.init envOn stUninit [] true ("SID1234") ("2026-10-12") ("t0")
          ("/app") ("plnexus") :=
  C6_init_idempotent envOn envOn stUninit [] ("SID1234") ("2026-10-12") ("t0")
    ("/app") ("plnexus") true ("OTHERSID") ("2026-10-13") ("t9") ("/app")
    ("plnexus") rfl

/-- C7 counterexample: an invocation with a positional symbol and no mode
flag takes the automated path with an unresolved (null) mode; it does not
trigger the interactive prompt flow, contrary to the claim. -/
theorem C7_counterexample :
    bootstrapStrategy [("AAPL")]
        = Strategy.automated none (some ("AAPL")) ∧
    bootstrapStrategy [("AAPL")] ≠ Strategy.interactive := by
  decide

/-- C7 (amended): outside the help flags, the interactive prompt flow is
triggered exactly when the argument list is empty; any non-empty argument
list without `--mock` or `--live` takes the automated path with a null
mode and the first non-dash argument as symbol. -/
theorem C7_interactive_iff_no_args (args : List String)
    (hh : args.contains ("--help") = false)
    (hh2 : args.contains ("-h") = false) :
    (bootstrapStrategy args = Strategy.interactive ↔ args = [])
    ∧ (args ≠ [] → args.contains ("--mock") = false →
        args.contains ("--live") = false →
        bootstrapStrategy args
          = Strategy.automated none
              (args.find? (fun arg =>
                !(jsStartsWith arg ("--")) && !(jsStartsWith arg ("-"))))) := by
  cases args with
  | nil => simp [bootstrapStrategy]
  | cons a rest =>
    refine ⟨?_, ?_⟩
    · simp only [bootstrapStrategy]
      rw [hh, hh2]
      simp
    · intro _ hm hl
      simp only [bootstrapStrategy]
      rw [hh, hh2, hm, hl]
      simp

/-- Witness for C7 (amended) at a single positional symbol. -/
theorem C7_witness :
    (bootstrapStrategy [("MSFT")] = Strategy.interactive ↔ ([("MSFT")] : List String) = [])
    ∧ (([("MSFT")] : List String) ≠ [] →
        (([("MSFT")] : List String).contains ("--mock")) = false →
        (([("MSFT")] : List String).contains ("--live")) = false →
        bootstrapStrategy [("MSFT")]
          = Strategy.automated none
              (([("MSFT")] : List String).find? (fun arg =>
                !(jsStartsWith arg ("--")) && !(jsStartsWith arg ("-"))))) :=
  C7_interactive_iff_no_args [("MSFT")] rfl rfl

/-- C8: with a non-empty symbol, a valid non-zero timestamp and any
source, MarketQuote construction with price -1 fails, construction with
any non-negative price (in particular 0) succeeds, and the constructed
quote stores the upper-cased symbol. -/
theorem C8_price_bounds_and_symbol_upper (s : String) (hs : s ≠ "")
    (pr ts : ℚ) (hpr : 0 ≤ pr) (hts : ts ≠ 0) (src : Option String) :
    (∃ e, MarketQuote.create
        { symbol := some s, price := some (-1), timestamp := some ts,
          source := src } = Except.error e)
    ∧ ∃ q, MarketQuote.create
          { symbol := some s, price := some pr, timestamp := some ts,
            source := src } = Except.ok q
        ∧ q.symbol = jsToUpper s := by
  constructor
  · exact ⟨"[Entity] MarketQuote for " ++ s ++ " has an invalid price.", by
      simp [MarketQuote.create, jsStrTruthy, hs,
        show (-1 : ℚ) < 0 by norm_num]⟩
  · exact ⟨{ symbol := jsToUpper s, price := pr, timestamp := ts,
             source := jsOr src ("UNKNOWN") },
      by simp [MarketQuote.create, jsStrTruthy, jsNumTruthy, hs, hts,
        not_lt.mpr hpr], rfl⟩

/-- Witness for C8 at symbol spx, price 0, a concrete timestamp. -/
theorem C8_witness :
    (∃ e, MarketQuote.create
        { symbol := some ("spx"), price := some (-1),
          timestamp := some 1757000000000, source := none }
      = Except.error e)
    ∧ ∃ q, MarketQuote.create
          { symbol := some ("spx"), price := some 0,
            timestamp := some 1757000000000, source := none }
        = Except.ok q
        ∧ q.symbol = jsToUpper ("spx") :=
  C8_price_bounds_and_symbol_upper ("spx") (by decide) 0 1757000000000
    (by norm_num) (by norm_num) none

/-- C9 counterexample: the empty string is not a recognized level, yet an
event declaring it is dropped under system level error — the falsy empty
string defaults to info via `data.level || 'info'` and info is filtered —
so record does not append a line for every unrecognized level string. -/
theorem C9_counterexample :
    LOG_LEVELS ("") = none ∧
    Tracer.record envOnErrorLevel stInit [] ("t0") ("INFRA") ("DETAIL")
        { level := some ("") } = [] := by
  decide

/-- C9 (amended): with the tracer initialized and tracing enabled, a
non-empty (truthy) level string outside error/warn/info/debug is never
dropped by the level filter: the JS comparison against the undefined table
entry is false, so exactly one line is appended regardless of the
configured system level. -/
theorem C9_invalid_level_not_filtered (env : Env) (st : TracerState)
    (log : List TraceEntry) (ts layer event : String) (data : EventData)
    (lvl : String) (hinit : st.isInitialized = true)
    (hen : env.isTracingEnabled = true) (hlvl : data.level = some lvl)
    (hne : lvl ≠ "") (hinv : LOG_LEVELS lvl = none) :
    Tracer.record env st log ts layer event data
      = log ++ [{ ts := ts, sid := st.sessionID, lyr := jsToUpper layer,
                  evt := jsToUpper event, dat := data }] := by
  simp [Tracer.record, hinit, hen, hlvl, jsOr, jsStrTruthy, hne, hinv, jsGT]

/-- Witness for C9 (amended): a verbose-named level survives even under
system level error. -/
theorem C9_witness :
    Tracer.record envOnErrorLevel stInit [] ("t0") ("INFRA") ("DETAIL")
        { level := some ("verbose") }
      = [{ ts := ("t0"), sid := some ("A1B2C3D"), lyr := ("INFRA"),
           evt := ("DETAIL"), dat := { level := some ("verbose") } }] := by
  have h := C9_invalid_level_not_filtered envOnErrorLevel stInit [] ("t0")
    ("INFRA") ("DETAIL") { level := some ("verbose") } ("verbose") rfl rfl rfl
    (by decide) rfl
  simpa using h

/-- C10: with any non-empty symbol, non-negative price and any source, a
timestamp of 0 — a perfectly valid number — is rejected, because the
constructor's `!timestamp` test rejects every falsy timestamp, not only
non-numbers. -/
theorem C10_zero_timestamp_rejected (s : String) (hs : s ≠ "") (pr : ℚ)
    (hpr : 0 ≤ pr) (src : Option String) :
    MarketQuote.create
        { symbol := some s, price := some pr, timestamp := some 0,
          source := src }
      = Except.error ("[Entity] MarketQuote for " ++ s ++
          " requires a valid numerical timestamp.") := by
  simp [MarketQuote.create, jsStrTruthy, jsNumTruthy, hs, not_lt.mpr hpr]

/-- Witness for C10 at a concrete quote. -/
theorem C10_witness :
    MarketQuote.create
        { symbol := some ("SPX"), price := some 6834, timestamp := some 0,
          source := some ("MockProvider_v2") }
      = Except.error ("[Entity] MarketQuote for " ++ ("SPX") ++
          " requires a valid numerical timestamp.") :=
  C10_zero_timestamp_rejected ("SPX") (by decide) 6834 (by norm_num)
    (some ("MockProvider_v2"))
